import Mathlib

/-!
Verification of the Triton callback registry (`src/libtriton/includes/callbacks.hpp`).

The repository fragment contains only the header: the class layout, the
callback kinds, the native callback typedefs and the method declarations.
The data model below is translated from that header.  The method bodies
(`callbacks.cpp`) are not part of the fragment, so each operation is
modelled from the specification's description of its behaviour; every such
definition carries a doc comment starting with `Modelled from the spec:`.

Native hooks are C function pointers; `removeCallback` compares them by
pointer identity.  We therefore embed a native hook as an identifier drawn
from a type with decidable equality (`M`, `R`, `S` below, one per kind),
and pass the hook's behaviour separately as an interpretation function when
a `processCallbacks` overload needs to run hooks.  Foreign (Python) hooks
are opaque reference-counted handles; we embed them as a record carrying an
identity, a callability flag and an arity, which is what `addCallback`'s
validation inspects.
-/

/-- The three callback kinds, from `enum callback_e` in the header. -/
inductive callback_e : Type where
  | GET_CONCRETE_MEMORY_VALUE
  | GET_CONCRETE_REGISTER_VALUE
  | SYMBOLIC_SIMPLIFICATION
deriving DecidableEq

/-- A foreign (Python) callable handle.  The header stores these as opaque
`PyObject*`; the spec's registration check needs only an identity (for
removal matching), whether the object is callable, and its arity. -/
structure PyObject : Type where
  pyId : Nat
  callable : Bool
  arity : Nat
deriving DecidableEq

/-- Errors raised by foreign-handle registration, from spec section 7. -/
inductive CallbackError : Type where
  | invalidCallbackKind
  | notCallable
deriving DecidableEq

/-- Modelled from the spec: the arity demanded of a foreign hook for each
kind.  Every kind's hook takes exactly one argument (a memory access, a
register, or an expression node). -/
def kindArity : callback_e → Nat := fun _ => 1

/-- The callback registry, from `class Callbacks` in the header: three
lists of foreign handles, three lists of native hooks (one per kind), and
the public `bool isDefined` data member. -/
structure Callbacks (M R S : Type) : Type where
  pyGetConcreteMemoryValueCallbacks : List PyObject
  pyGetConcreteRegisterValueCallbacks : List PyObject
  pySymbolicSimplificationCallbacks : List PyObject
  getConcreteMemoryValueCallbacks : List M
  getConcreteRegisterValueCallbacks : List R
  symbolicSimplificationCallbacks : List S
  isDefined : Bool

variable {M R S : Type}

/-- `countCallbacks`, declared in the header as "Returns the number of
callbacks recorded".  Modelled from the spec: the sum of the lengths of the
six sequences. -/
def Callbacks.countCallbacks (s : Callbacks M R S) : Nat :=
  s.pyGetConcreteMemoryValueCallbacks.length +
  s.pyGetConcreteRegisterValueCallbacks.length +
  s.pySymbolicSimplificationCallbacks.length +
  s.getConcreteMemoryValueCallbacks.length +
  s.getConcreteRegisterValueCallbacks.length +
  s.symbolicSimplificationCallbacks.length

/-- Modelled from the spec: `isDefined` is recomputed whenever a sequence
changes, true iff at least one callback is recorded. -/
def Callbacks.recomputeIsDefined (s : Callbacks M R S) : Callbacks M R S :=
  { s with isDefined := decide (0 < s.countCallbacks) }

/-- Modelled from the spec: the default constructor creates an empty
registry with `isDefined` false. -/
def Callbacks.init : Callbacks M R S :=
  ⟨[], [], [], [], [], [], false⟩

/-- Modelled from the spec: the copy constructor duplicates all six
sequences and copies the `isDefined` flag. -/
def Callbacks.copy (s : Callbacks M R S) : Callbacks M R S :=
  ⟨s.pyGetConcreteMemoryValueCallbacks,
   s.pyGetConcreteRegisterValueCallbacks,
   s.pySymbolicSimplificationCallbacks,
   s.getConcreteMemoryValueCallbacks,
   s.getConcreteRegisterValueCallbacks,
   s.symbolicSimplificationCallbacks,
   s.isDefined⟩

/-- Modelled from the spec: `addCallback(getConcreteMemoryValueCallback)`
appends the hook to its kind's sequence and updates `isDefined`. -/
def Callbacks.addCallbackMem (s : Callbacks M R S) (cb : M) : Callbacks M R S :=
  Callbacks.recomputeIsDefined
    { s with getConcreteMemoryValueCallbacks := s.getConcreteMemoryValueCallbacks ++ [cb] }

/-- Modelled from the spec: `addCallback(getConcreteRegisterValueCallback)`
appends the hook to its kind's sequence and updates `isDefined`. -/
def Callbacks.addCallbackReg (s : Callbacks M R S) (cb : R) : Callbacks M R S :=
  Callbacks.recomputeIsDefined
    { s with getConcreteRegisterValueCallbacks := s.getConcreteRegisterValueCallbacks ++ [cb] }

/-- Modelled from the spec: `addCallback(symbolicSimplificationCallback)`
appends the hook to its kind's sequence and updates `isDefined`. -/
def Callbacks.addCallbackSimp (s : Callbacks M R S) (cb : S) : Callbacks M R S :=
  Callbacks.recomputeIsDefined
    { s with symbolicSimplificationCallbacks := s.symbolicSimplificationCallbacks ++ [cb] }

/-- Modelled from the spec: `addCallback(PyObject*, kind)` validates that
the handle is callable and matches the kind's arity; on failure it raises
`NotCallable` or `InvalidCallbackKind` and leaves the registry unchanged;
on success it appends the handle to the kind's foreign sequence. -/
def Callbacks.addCallbackPy (s : Callbacks M R S) (function : PyObject)
    (kind : callback_e) : Except CallbackError (Callbacks M R S) :=
  if function.callable = false then
    Except.error CallbackError.notCallable
  else if function.arity ≠ kindArity kind then
    Except.error CallbackError.invalidCallbackKind
  else
    Except.ok (Callbacks.recomputeIsDefined (match kind with
      | callback_e.GET_CONCRETE_MEMORY_VALUE =>
          { s with pyGetConcreteMemoryValueCallbacks :=
              s.pyGetConcreteMemoryValueCallbacks ++ [function] }
      | callback_e.GET_CONCRETE_REGISTER_VALUE =>
          { s with pyGetConcreteRegisterValueCallbacks :=
              s.pyGetConcreteRegisterValueCallbacks ++ [function] }
      | callback_e.SYMBOLIC_SIMPLIFICATION =>
          { s with pySymbolicSimplificationCallbacks :=
              s.pySymbolicSimplificationCallbacks ++ [function] }))

/-- Modelled from the spec: `removeCallback(getConcreteMemoryValueCallback)`
removes the first occurrence equal to the given hook (a no-op when absent)
and updates `isDefined`. -/
def Callbacks.removeCallbackMem [DecidableEq M] (s : Callbacks M R S) (cb : M) :
    Callbacks M R S :=
  Callbacks.recomputeIsDefined
    { s with getConcreteMemoryValueCallbacks := s.getConcreteMemoryValueCallbacks.erase cb }

/-- Modelled from the spec: `removeCallback(getConcreteRegisterValueCallback)`
removes the first occurrence equal to the given hook (a no-op when absent)
and updates `isDefined`. -/
def Callbacks.removeCallbackReg [DecidableEq R] (s : Callbacks M R S) (cb : R) :
    Callbacks M R S :=
  Callbacks.recomputeIsDefined
    { s with getConcreteRegisterValueCallbacks := s.getConcreteRegisterValueCallbacks.erase cb }

/-- Modelled from the spec: `removeCallback(symbolicSimplificationCallback)`
removes the first occurrence equal to the given hook (a no-op when absent)
and updates `isDefined`. -/
def Callbacks.removeCallbackSimp [DecidableEq S] (s : Callbacks M R S) (cb : S) :
    Callbacks M R S :=
  Callbacks.recomputeIsDefined
    { s with symbolicSimplificationCallbacks := s.symbolicSimplificationCallbacks.erase cb }

/-- Modelled from the spec: `removeCallback(PyObject*, kind)` removes the
first occurrence matching the handle in the kind's foreign sequence (a
no-op when absent) and updates `isDefined`. -/
def Callbacks.removeCallbackPy (s : Callbacks M R S) (function : PyObject)
    (kind : callback_e) : Callbacks M R S :=
  Callbacks.recomputeIsDefined (match kind with
    | callback_e.GET_CONCRETE_MEMORY_VALUE =>
        { s with pyGetConcreteMemoryValueCallbacks :=
            s.pyGetConcreteMemoryValueCallbacks.erase function }
    | callback_e.GET_CONCRETE_REGISTER_VALUE =>
        { s with pyGetConcreteRegisterValueCallbacks :=
            s.pyGetConcreteRegisterValueCallbacks.erase function }
    | callback_e.SYMBOLIC_SIMPLIFICATION =>
        { s with pySymbolicSimplificationCallbacks :=
            s.pySymbolicSimplificationCallbacks.erase function })

/-- Modelled from the spec: `removeAllCallbacks` clears all six sequences
and sets `isDefined` to false. -/
def Callbacks.removeAllCallbacks (_s : Callbacks M R S) : Callbacks M R S :=
  ⟨[], [], [], [], [], [], false⟩

/-- Modelled from the spec: `processCallbacks(kind, node)` for the
symbolic-simplification kind folds the node through the native hooks in
registration order and then through the foreign hooks, returning the final
node; with no hooks (or a non-matching kind) the input node is returned
unchanged.  Native hook behaviour is supplied by the interpretation `iS`,
foreign behaviour by `iP`. -/
def Callbacks.processCallbacksNode {Node : Type} (s : Callbacks M R S)
    (iS : S → Node → Node) (iP : PyObject → Node → Node)
    (kind : callback_e) (node : Node) : Node :=
  match kind with
  | callback_e.SYMBOLIC_SIMPLIFICATION =>
      let fromNative := s.symbolicSimplificationCallbacks.foldl (fun n cb => iS cb n) node
      s.pySymbolicSimplificationCallbacks.foldl (fun n cb => iP cb n) fromNative
  | _ => node

/-- Modelled from the spec: `processCallbacks(kind, mem)` for the
concrete-memory-value kind threads the (mutable) memory-access descriptor
through every native hook in registration order and then through every
foreign hook; the result is the descriptor's final state.  `A` is the
descriptor state, `iM` and `iP` interpret hook behaviour. -/
def Callbacks.processCallbacksMem {A : Type} (s : Callbacks M R S)
    (iM : M → A → A) (iP : PyObject → A → A)
    (kind : callback_e) (mem : A) : A :=
  match kind with
  | callback_e.GET_CONCRETE_MEMORY_VALUE =>
      let fromNative := s.getConcreteMemoryValueCallbacks.foldl (fun m cb => iM cb m) mem
      s.pyGetConcreteMemoryValueCallbacks.foldl (fun m cb => iP cb m) fromNative
  | _ => mem

/-- Modelled from the spec: `processCallbacks(kind, reg)` for the
concrete-register-value kind, identical contract to the memory case on the
register sequences. -/
def Callbacks.processCallbacksReg {A : Type} (s : Callbacks M R S)
    (iR : R → A → A) (iP : PyObject → A → A)
    (kind : callback_e) (reg : A) : A :=
  match kind with
  | callback_e.GET_CONCRETE_REGISTER_VALUE =>
      let fromNative := s.getConcreteRegisterValueCallbacks.foldl (fun m cb => iR cb m) reg
      s.pyGetConcreteRegisterValueCallbacks.foldl (fun m cb => iP cb m) fromNative
  | _ => reg

/-- The three `processCallbacks` overloads are `const` member functions in
the header: they receive the registry and hand it back unmodified alongside
their result.  This state-passing form makes that explicit. -/
def Callbacks.processCallbacksNodeFull {Node : Type} (s : Callbacks M R S)
    (iS : S → Node → Node) (iP : PyObject → Node → Node)
    (kind : callback_e) (node : Node) : Callbacks M R S × Node :=
  (s, s.processCallbacksNode iS iP kind node)

/-- State-passing form of the `const` memory overload of `processCallbacks`. -/
def Callbacks.processCallbacksMemFull {A : Type} (s : Callbacks M R S)
    (iM : M → A → A) (iP : PyObject → A → A)
    (kind : callback_e) (mem : A) : Callbacks M R S × A :=
  (s, s.processCallbacksMem iM iP kind mem)

/-- State-passing form of the `const` register overload of `processCallbacks`. -/
def Callbacks.processCallbacksRegFull {A : Type} (s : Callbacks M R S)
    (iR : R → A → A) (iP : PyObject → A → A)
    (kind : callback_e) (reg : A) : Callbacks M R S × A :=
  (s, s.processCallbacksReg iR iP kind reg)

/-- Direct assignment to the public `bool isDefined` data member of the
header's `class Callbacks` (it is in the `public:` section, so any caller
may write it without touching the sequences). -/
def Callbacks.setIsDefined (s : Callbacks M R S) (b : Bool) : Callbacks M R S :=
  { s with isDefined := b }

/-- A mutation of the registry through its public mutator API: the three
native `addCallback` overloads, the foreign `addCallback`, the four
`removeCallback` forms and `removeAllCallbacks`. -/
inductive Op (M R S : Type) : Type where
  | addMem (cb : M)
  | addReg (cb : R)
  | addSimp (cb : S)
  | addPy (function : PyObject) (kind : callback_e)
  | removeMem (cb : M)
  | removeReg (cb : R)
  | removeSimp (cb : S)
  | removePy (function : PyObject) (kind : callback_e)
  | removeAll

/-- Running one mutator on a registry.  A failing foreign `addCallback`
leaves the registry unchanged (spec section 7: all-or-nothing). -/
def Op.apply [DecidableEq M] [DecidableEq R] [DecidableEq S]
    (op : Op M R S) (s : Callbacks M R S) : Callbacks M R S :=
  match op with
  | Op.addMem cb => s.addCallbackMem cb
  | Op.addReg cb => s.addCallbackReg cb
  | Op.addSimp cb => s.addCallbackSimp cb
  | Op.addPy f k =>
      match s.addCallbackPy f k with
      | Except.ok s2 => s2
      | Except.error _ => s
  | Op.removeMem cb => s.removeCallbackMem cb
  | Op.removeReg cb => s.removeCallbackReg cb
  | Op.removeSimp cb => s.removeCallbackSimp cb
  | Op.removePy f k => s.removeCallbackPy f k
  | Op.removeAll => s.removeAllCallbacks

/-- Running a sequence of mutators left to right. -/
def Callbacks.run [DecidableEq M] [DecidableEq R] [DecidableEq S]
    (ops : List (Op M R S)) (s : Callbacks M R S) : Callbacks M R S :=
  ops.foldl (fun t op => op.apply t) s

/-- The registry invariant of spec section 3: `isDefined` holds exactly
when some callback is recorded. -/
def Callbacks.inv (s : Callbacks M R S) : Prop :=
  s.isDefined = decide (0 < s.countCallbacks)

/-! ### Helper lemmas -/

theorem Callbacks.countCallbacks_recompute (s : Callbacks M R S) :
    s.recomputeIsDefined.countCallbacks = s.countCallbacks := rfl

theorem Callbacks.inv_recompute (s : Callbacks M R S) :
    s.recomputeIsDefined.inv := by
  simp [Callbacks.inv, Callbacks.recomputeIsDefined, Callbacks.countCallbacks]

theorem Callbacks.inv_init : (Callbacks.init : Callbacks M R S).inv := by
  simp [Callbacks.inv, Callbacks.init, Callbacks.countCallbacks]

theorem Callbacks.inv_removeAll (s : Callbacks M R S) :
    s.removeAllCallbacks.inv := by
  simp [Callbacks.inv, Callbacks.removeAllCallbacks, Callbacks.countCallbacks]

theorem Callbacks.inv_addCallbackPy_ok (s s2 : Callbacks M R S) (f : PyObject)
    (k : callback_e) (h : s.addCallbackPy f k = Except.ok s2) : s2.inv := by
  unfold Callbacks.addCallbackPy at h
  split at h
  case _ h1 => exact absurd h (by simp)
  case _ h1 =>
    split at h
    case _ h2 => exact absurd h (by simp)
    case _ h2 =>
      injection h with h
      subst h
      exact Callbacks.inv_recompute _

theorem Op.inv_apply [DecidableEq M] [DecidableEq R] [DecidableEq S]
    (op : Op M R S) (s : Callbacks M R S) (h : s.inv) : (op.apply s).inv := by
  cases op with
  | addMem cb => exact Callbacks.inv_recompute _
  | addReg cb => exact Callbacks.inv_recompute _
  | addSimp cb => exact Callbacks.inv_recompute _
  | addPy f k =>
      simp only [Op.apply]
      cases hres : s.addCallbackPy f k with
      | error e => exact h
      | ok s2 => exact Callbacks.inv_addCallbackPy_ok s s2 f k hres
  | removeMem cb => exact Callbacks.inv_recompute _
  | removeReg cb => exact Callbacks.inv_recompute _
  | removeSimp cb => exact Callbacks.inv_recompute _
  | removePy f k => exact Callbacks.inv_recompute _
  | removeAll => exact Callbacks.inv_removeAll s

theorem Callbacks.inv_run [DecidableEq M] [DecidableEq R] [DecidableEq S]
    (ops : List (Op M R S)) (s : Callbacks M R S) (h : s.inv) :
    (Callbacks.run ops s).inv := by
  induction ops generalizing s with
  | nil => exact h
  | cons op rest ih => exact ih (op.apply s) (op.inv_apply s h)

theorem Callbacks.recompute_eq_self (s : Callbacks M R S) (h : s.inv) :
    s.recomputeIsDefined = s := by
  unfold Callbacks.recomputeIsDefined
  rw [← h]

theorem foldl_append_tags {A B : Type} (g : A → B) (l : List A) (t : List B) :
    l.foldl (fun acc cb => acc ++ [g cb]) t = t ++ l.map g := by
  induction l generalizing t with
  | nil => simp
  | cons x xs ih => simp [ih]

/-! ### Concrete sample registries and interpretations, used by witnesses -/

/-- A sample registry holding the two native simplification hooks 1 and 2. -/
def sampleSimpRegistry : Callbacks Nat Nat Nat :=
  ⟨[], [], [], [], [], [1, 2], true⟩

/-- Behaviour of the sample native simplification hooks: hook 1 doubles the
node value, hook 2 increments it (the scenario of spec section 8). -/
def sampleSimpInterp : Nat → Nat → Nat :=
  fun cb n => if cb = 1 then 2 * n else n + 1

/-- Behaviour of foreign simplification hooks in the samples: identity. -/
def samplePyNodeInterp : PyObject → Nat → Nat :=
  fun _ n => n

/-- A sample registry in which native memory hook 7 is registered twice. -/
def sampleDupRegistry : Callbacks Nat Nat Nat :=
  ⟨[], [], [], [7, 7], [], [], true⟩

/-- A sample foreign handle that is not callable. -/
def badPyHandle : PyObject :=
  ⟨42, false, 1⟩

/-! ### Claims -/

/-- Claim C1: for every sequence of addCallback/removeCallback/removeAllCallbacks
operations applied to a registry (created empty), after each operation the
`isDefined` flag is true iff the sum of the lengths of all six callback
sequences is positive.  The operation list is arbitrary, so the property
holds after every prefix of any operation sequence. -/
theorem claim_C1 [DecidableEq M] [DecidableEq R] [DecidableEq S]
    (ops : List (Op M R S)) :
    (Callbacks.run ops Callbacks.init).isDefined = true ↔
      0 < (Callbacks.run ops Callbacks.init).countCallbacks := by
  have h := Callbacks.inv_run ops Callbacks.init Callbacks.inv_init
  rw [Callbacks.inv] at h
  rw [h]
  exact decide_eq_true_iff

/-- Claim C2: processCallbacks(SYMBOLIC_SIMPLIFICATION, n) is a fold over the
registered simplification hooks: with no hooks it returns n unchanged, and
with native hooks h1 then h2 registered in that order the native stage
produces iS h2 (iS h1 n), which is then threaded through the foreign-hook
sequence in the same manner, the final hook's output being returned. -/
theorem claim_C2 {Node : Type} (s : Callbacks M R S)
    (iS : S → Node → Node) (iP : PyObject → Node → Node) (n : Node) :
    (s.symbolicSimplificationCallbacks = [] →
      s.pySymbolicSimplificationCallbacks = [] →
      s.processCallbacksNode iS iP callback_e.SYMBOLIC_SIMPLIFICATION n = n) ∧
    (∀ h1 h2 : S, s.symbolicSimplificationCallbacks = [h1, h2] →
      s.processCallbacksNode iS iP callback_e.SYMBOLIC_SIMPLIFICATION n =
        s.pySymbolicSimplificationCallbacks.foldl (fun m cb => iP cb m) (iS h2 (iS h1 n))) := by
  constructor
  · intro hn hp
    simp [Callbacks.processCallbacksNode, hn, hp]
  · intro h1 h2 hn
    simp [Callbacks.processCallbacksNode, hn]

theorem claim_C2_witness :
    (Callbacks.init : Callbacks Nat Nat Nat).processCallbacksNode sampleSimpInterp
      samplePyNodeInterp callback_e.SYMBOLIC_SIMPLIFICATION 5 = 5 ∧
    sampleSimpRegistry.processCallbacksNode sampleSimpInterp samplePyNodeInterp
      callback_e.SYMBOLIC_SIMPLIFICATION 5 = 11 := by
  constructor
  · exact (claim_C2 Callbacks.init sampleSimpInterp samplePyNodeInterp 5).1 rfl rfl
  · have h := (claim_C2 sampleSimpRegistry sampleSimpInterp samplePyNodeInterp 5).2 1 2 rfl
    simpa [sampleSimpRegistry, sampleSimpInterp] using h

/-- Claim C3: removeCallback on a native hook removes only the first matching
occurrence: in every registry whose kind sequence registers the given hook
exactly twice, one removeCallback call leaves exactly one registration of it,
for each of the three native kinds. -/
theorem claim_C3 [DecidableEq M] [DecidableEq R] [DecidableEq S]
    (s : Callbacks M R S) :
    (∀ cb : M, s.getConcreteMemoryValueCallbacks.count cb = 2 →
      (s.removeCallbackMem cb).getConcreteMemoryValueCallbacks.count cb = 1) ∧
    (∀ cb : R, s.getConcreteRegisterValueCallbacks.count cb = 2 →
      (s.removeCallbackReg cb).getConcreteRegisterValueCallbacks.count cb = 1) ∧
    (∀ cb : S, s.symbolicSimplificationCallbacks.count cb = 2 →
      (s.removeCallbackSimp cb).symbolicSimplificationCallbacks.count cb = 1) := by
  refine ⟨fun cb h => ?_, fun cb h => ?_, fun cb h => ?_⟩ <;>
    simp [Callbacks.removeCallbackMem, Callbacks.removeCallbackReg,
      Callbacks.removeCallbackSimp, Callbacks.recomputeIsDefined,
      List.count_erase_self, h]

theorem claim_C3_witness :
    (sampleDupRegistry.removeCallbackMem 7).getConcreteMemoryValueCallbacks.count 7 = 1 :=
  (claim_C3 sampleDupRegistry).1 7 (by decide)

/-- Claim C4: processCallbacks(GET_CONCRETE_MEMORY_VALUE, d) threads one
descriptor through every native memory hook in insertion order and then
through every foreign hook of that kind in insertion order, each later hook
seeing the earlier hooks' mutations: instrumenting every hook to append its
own tag to the descriptor's trace yields the native tags in registration
order followed by the foreign tags in registration order, one tag per
registration. -/
theorem claim_C4 (s : Callbacks M R S) (d : List (M ⊕ PyObject)) :
    s.processCallbacksMem (fun cb t => t ++ [Sum.inl cb]) (fun f t => t ++ [Sum.inr f])
      callback_e.GET_CONCRETE_MEMORY_VALUE d =
    d ++ s.getConcreteMemoryValueCallbacks.map Sum.inl
      ++ s.pyGetConcreteMemoryValueCallbacks.map Sum.inr := by
  simp [Callbacks.processCallbacksMem, foldl_append_tags, List.append_assoc]

/-- Claim C5: registering a foreign handle that is not callable, or whose
arity does not match the kind's contract, fails with NotCallable or
InvalidCallbackKind, and the registry is left exactly as it was (the
all-or-nothing contract of spec section 7). -/
theorem claim_C5 [DecidableEq M] [DecidableEq R] [DecidableEq S]
    (s : Callbacks M R S) (f : PyObject) (k : callback_e)
    (h : f.callable = false ∨ f.arity ≠ kindArity k) :
    (∃ e : CallbackError, s.addCallbackPy f k = Except.error e) ∧
    (Op.addPy f k).apply s = s := by
  have hres : ∃ e : CallbackError, s.addCallbackPy f k = Except.error e := by
    by_cases hc : f.callable = false
    · exact ⟨CallbackError.notCallable, by simp [Callbacks.addCallbackPy, hc]⟩
    · rcases h with h | h
      · exact absurd h hc
      · exact ⟨CallbackError.invalidCallbackKind, by simp [Callbacks.addCallbackPy, hc, h]⟩
  rcases hres with ⟨e, he⟩
  exact ⟨⟨e, he⟩, by simp [Op.apply, he]⟩

theorem claim_C5_witness :
    (∃ e : CallbackError, (Callbacks.init : Callbacks Nat Nat Nat).addCallbackPy
      badPyHandle callback_e.SYMBOLIC_SIMPLIFICATION = Except.error e) ∧
    (Op.addPy badPyHandle callback_e.SYMBOLIC_SIMPLIFICATION).apply
      (Callbacks.init : Callbacks Nat Nat Nat) = Callbacks.init :=
  claim_C5 Callbacks.init badPyHandle callback_e.SYMBOLIC_SIMPLIFICATION (Or.inl rfl)

/-- Two registries side by side, the original and a copy made from it, to
state the aliasing-freedom of the copy operation. -/
structure RegistryPair (M R S : Type) : Type where
  orig : Callbacks M R S
  dup : Callbacks M R S

/-- Forming the pair by copying the original registry. -/
def RegistryPair.copyFrom (s : Callbacks M R S) : RegistryPair M R S :=
  ⟨s, s.copy⟩

/-- Mutating only the copy, leaving the original slot untouched. -/
def RegistryPair.mutateDup [DecidableEq M] [DecidableEq R] [DecidableEq S]
    (w : RegistryPair M R S) (op : Op M R S) : RegistryPair M R S :=
  ⟨w.orig, op.apply w.dup⟩

/-- Mutating only the original, leaving the copy slot untouched. -/
def RegistryPair.mutateOrig [DecidableEq M] [DecidableEq R] [DecidableEq S]
    (w : RegistryPair M R S) (op : Op M R S) : RegistryPair M R S :=
  ⟨op.apply w.orig, w.dup⟩

theorem RegistryPair.foldl_mutateDup_orig [DecidableEq M] [DecidableEq R] [DecidableEq S]
    (ops : List (Op M R S)) :
    ∀ w : RegistryPair M R S, (ops.foldl RegistryPair.mutateDup w).orig = w.orig := by
  induction ops with
  | nil => intro w; rfl
  | cons op rest ih => intro w; exact ih (w.mutateDup op)

theorem RegistryPair.foldl_mutateOrig_dup [DecidableEq M] [DecidableEq R] [DecidableEq S]
    (ops : List (Op M R S)) :
    ∀ w : RegistryPair M R S, (ops.foldl RegistryPair.mutateOrig w).dup = w.dup := by
  induction ops with
  | nil => intro w; rfl
  | cons op rest ih => intro w; exact ih (w.mutateOrig op)

/-- Claim C6: copying a registry yields an independent value: any sequence of
mutations applied to the copy leaves the original exactly as it was, any
sequence of mutations applied to the original leaves the copy as made, and
immediately after the copy the copy's isDefined flag equals the source's. -/
theorem claim_C6 [DecidableEq M] [DecidableEq R] [DecidableEq S]
    (s : Callbacks M R S) (ops : List (Op M R S)) :
    (ops.foldl RegistryPair.mutateDup (RegistryPair.copyFrom s)).orig = s ∧
    (ops.foldl RegistryPair.mutateOrig (RegistryPair.copyFrom s)).dup = s.copy ∧
    (RegistryPair.copyFrom s).dup.isDefined = s.isDefined :=
  ⟨RegistryPair.foldl_mutateDup_orig ops (RegistryPair.copyFrom s),
   RegistryPair.foldl_mutateOrig_dup ops (RegistryPair.copyFrom s), rfl⟩

/-- Claim C7: after removeAllCallbacks all six sequences are empty and
isDefined is false; removeAllCallbacks is idempotent; and every subsequent
processCallbacks overload invokes no hooks, leaving its argument untouched —
in particular the simplification overload returns its input node unchanged. -/
theorem claim_C7 (s : Callbacks M R S) :
    s.removeAllCallbacks.pyGetConcreteMemoryValueCallbacks = [] ∧
    s.removeAllCallbacks.pyGetConcreteRegisterValueCallbacks = [] ∧
    s.removeAllCallbacks.pySymbolicSimplificationCallbacks = [] ∧
    s.removeAllCallbacks.getConcreteMemoryValueCallbacks = [] ∧
    s.removeAllCallbacks.getConcreteRegisterValueCallbacks = [] ∧
    s.removeAllCallbacks.symbolicSimplificationCallbacks = [] ∧
    s.removeAllCallbacks.isDefined = false ∧
    s.removeAllCallbacks.removeAllCallbacks = s.removeAllCallbacks ∧
    (∀ (Node : Type) (iS : S → Node → Node) (iP : PyObject → Node → Node)
        (k : callback_e) (n : Node),
        s.removeAllCallbacks.processCallbacksNode iS iP k n = n) ∧
    (∀ (A : Type) (iM : M → A → A) (iP : PyObject → A → A)
        (k : callback_e) (d : A),
        s.removeAllCallbacks.processCallbacksMem iM iP k d = d) ∧
    (∀ (A : Type) (iR : R → A → A) (iP : PyObject → A → A)
        (k : callback_e) (r : A),
        s.removeAllCallbacks.processCallbacksReg iR iP k r = r) := by
  refine ⟨rfl, rfl, rfl, rfl, rfl, rfl, rfl, rfl, ?_, ?_, ?_⟩ <;>
  · intro A i1 i2 k x
    cases k <;> rfl

/-- Claim C8: removeCallback, in all its native and foreign forms, is total
and, when no matching registration exists, leaves the registry exactly as it
was (a silent no-op).  The hypothesis that isDefined agrees with the
sequences holds in every state the modelled operations can reach. -/
theorem claim_C8 [DecidableEq M] [DecidableEq R] [DecidableEq S]
    (s : Callbacks M R S) (hinv : s.inv) :
    (∀ cb : M, cb ∉ s.getConcreteMemoryValueCallbacks → s.removeCallbackMem cb = s) ∧
    (∀ cb : R, cb ∉ s.getConcreteRegisterValueCallbacks → s.removeCallbackReg cb = s) ∧
    (∀ cb : S, cb ∉ s.symbolicSimplificationCallbacks → s.removeCallbackSimp cb = s) ∧
    (∀ f : PyObject, f ∉ s.pyGetConcreteMemoryValueCallbacks →
        s.removeCallbackPy f callback_e.GET_CONCRETE_MEMORY_VALUE = s) ∧
    (∀ f : PyObject, f ∉ s.pyGetConcreteRegisterValueCallbacks →
        s.removeCallbackPy f callback_e.GET_CONCRETE_REGISTER_VALUE = s) ∧
    (∀ f : PyObject, f ∉ s.pySymbolicSimplificationCallbacks →
        s.removeCallbackPy f callback_e.SYMBOLIC_SIMPLIFICATION = s) := by
  refine ⟨fun cb hmem => ?_, fun cb hmem => ?_, fun cb hmem => ?_,
    fun f hmem => ?_, fun f hmem => ?_, fun f hmem => ?_⟩
  · unfold Callbacks.removeCallbackMem
    rw [List.erase_of_not_mem hmem]
    exact Callbacks.recompute_eq_self s hinv
  · unfold Callbacks.removeCallbackReg
    rw [List.erase_of_not_mem hmem]
    exact Callbacks.recompute_eq_self s hinv
  · unfold Callbacks.removeCallbackSimp
    rw [List.erase_of_not_mem hmem]
    exact Callbacks.recompute_eq_self s hinv
  · show Callbacks.recomputeIsDefined
      { s with pyGetConcreteMemoryValueCallbacks :=
          s.pyGetConcreteMemoryValueCallbacks.erase f } = s
    rw [List.erase_of_not_mem hmem]
    exact Callbacks.recompute_eq_self s hinv
  · show Callbacks.recomputeIsDefined
      { s with pyGetConcreteRegisterValueCallbacks :=
          s.pyGetConcreteRegisterValueCallbacks.erase f } = s
    rw [List.erase_of_not_mem hmem]
    exact Callbacks.recompute_eq_self s hinv
  · show Callbacks.recomputeIsDefined
      { s with pySymbolicSimplificationCallbacks :=
          s.pySymbolicSimplificationCallbacks.erase f } = s
    rw [List.erase_of_not_mem hmem]
    exact Callbacks.recompute_eq_self s hinv

theorem claim_C8_witness :
    (Callbacks.init : Callbacks Nat Nat Nat).removeCallbackMem 0 = Callbacks.init ∧
    (Callbacks.init : Callbacks Nat Nat Nat).removeCallbackPy badPyHandle
      callback_e.SYMBOLIC_SIMPLIFICATION = Callbacks.init := by
  have h := claim_C8 (Callbacks.init : Callbacks Nat Nat Nat) rfl
  exact ⟨h.1 0 (List.not_mem_nil 0), h.2.2.2.2.2 badPyHandle (List.not_mem_nil badPyHandle)⟩

/-- Claim C9: every processCallbacks overload is declared const in the header
and leaves the registry's own state unchanged: in the state-passing embedding
each overload hands back exactly the registry it was given, so the six
sequences and the isDefined flag are identical before and after the call. -/
theorem claim_C9 (s : Callbacks M R S) :
    (∀ (Node : Type) (iS : S → Node → Node) (iP : PyObject → Node → Node)
        (k : callback_e) (n : Node),
        (s.processCallbacksNodeFull iS iP k n).1 = s) ∧
    (∀ (A : Type) (iM : M → A → A) (iP : PyObject → A → A)
        (k : callback_e) (d : A),
        (s.processCallbacksMemFull iM iP k d).1 = s) ∧
    (∀ (A : Type) (iR : R → A → A) (iP : PyObject → A → A)
        (k : callback_e) (r : A),
        (s.processCallbacksRegFull iR iP k r).1 = s) :=
  ⟨fun _ _ _ _ _ => rfl, fun _ _ _ _ _ => rfl, fun _ _ _ _ _ => rfl⟩

/-- Claim C10: isDefined is a public data member that can be written without
touching any callback sequence, and the interface therefore does not enforce
that isDefined equals the emptiness test of the six sequences: assigning it
changes no sequence, and the state obtained by setting it on an empty
registry has isDefined true while holding zero callbacks. -/
theorem claim_C10 :
    (∀ (M2 R2 S2 : Type) (s : Callbacks M2 R2 S2) (b : Bool),
      (s.setIsDefined b).isDefined = b ∧
      (s.setIsDefined b).pyGetConcreteMemoryValueCallbacks = s.pyGetConcreteMemoryValueCallbacks ∧
      (s.setIsDefined b).pyGetConcreteRegisterValueCallbacks = s.pyGetConcreteRegisterValueCallbacks ∧
      (s.setIsDefined b).pySymbolicSimplificationCallbacks = s.pySymbolicSimplificationCallbacks ∧
      (s.setIsDefined b).getConcreteMemoryValueCallbacks = s.getConcreteMemoryValueCallbacks ∧
      (s.setIsDefined b).getConcreteRegisterValueCallbacks = s.getConcreteRegisterValueCallbacks ∧
      (s.setIsDefined b).symbolicSimplificationCallbacks = s.symbolicSimplificationCallbacks) ∧
    ((Callbacks.init.setIsDefined true : Callbacks Nat Nat Nat).isDefined = true ∧
      (Callbacks.init.setIsDefined true : Callbacks Nat Nat Nat).countCallbacks = 0) :=
  ⟨fun _ _ _ _ _ => ⟨rfl, rfl, rfl, rfl, rfl, rfl, rfl⟩, rfl, rfl⟩
